import Mathlib

/-!
A shallow embedding of the borrowing-lifecycle code of the books-library
service (app/routes/borrow_record.py, app/routes/users.py, app/schema.py,
app/database.py), with theorems checking the specification's claims.

Modelling conventions:
* A Python `date` is a day number (`Int`); a `datetime` is a tick count
  (`Int`, seconds); `datetime.date()` is floor division by 86400.
  Interpolating a date into a string renders the day number in decimal.
* SQL rows are Lean structures; the session is a `LibState` of row lists;
  `session.get(Model, id)` is a `find?` by id.
* An HTTP endpoint is a function returning `Except ApiError result`;
  `raise HTTPException(...)` is `.error (.http status detail)`. A raise
  aborts the transaction before commit, so the error branches carry no
  state: failure writes nothing.
* Two Python runtime failures the routes can actually hit are explicit
  error values: `.attributeErrorNone` (attribute access on `None`, from a
  guard-free `session.get` dereference) and `.nameError` (an identifier
  that is not defined in the module).
* Monetary floats are exact rationals: every value the fine computation
  can touch (multiples of 0.50, capped at 25.00) is exactly representable
  in binary floating point, so `ℚ` is a faithful model.
* Pydantic validation of a request payload runs before the route handler;
  it is a `Bool`-valued function, and each `xxxEndpoint` wrapper runs it
  first and answers 422 on failure, as FastAPI does.
-/

namespace BooksLibrary

abbrev Date := Int
abbrev DateTime := Int

/-- `datetime.date()`: the day that contains a tick count (floor division,
as calendars do). -/
def dateOfTicks (t : DateTime) : Date := Int.fdiv t 86400

/-- schema.py `BookStatus(str, Enum)`. -/
inductive BookStatus
  | available
  | borrowed
  | reserved
  | maintenance
  | lost
deriving DecidableEq

/-- The `.value` string of a `BookStatus` member, as an f-string renders
it. -/
def BookStatus.value : BookStatus → String
  | .available => "available"
  | .borrowed => "borrowed"
  | .reserved => "reserved"
  | .maintenance => "maintenance"
  | .lost => "lost"

/-- schema.py `Genre(str, Enum)`. -/
inductive Genre
  | fiction
  | non_fiction
  | mystery
  | romance
  | science_fiction
  | fantasy
  | biography
  | history
  | science
  | technology
  | children
  | young_adult
deriving DecidableEq

/-- schema.py `UserRole(str, Enum)`. -/
inductive UserRole
  | admin
  | librarian
  | member
deriving DecidableEq

/-- database.py `User` row (the fields the routes read). -/
structure User where
  id : Nat
  name : String
  email : String
  role : UserRole
  is_active : Bool
deriving DecidableEq

/-- database.py `Book` row. -/
structure Book where
  id : Nat
  title : String
  pages : Int
  language : Option String
  description : Option String
  genre : Option Genre
  status : BookStatus
  updated_at : DateTime
deriving DecidableEq

/-- database.py `BorrowRecord` row. -/
structure BorrowRecord where
  id : Nat
  user_id : Nat
  book_id : Nat
  borrowed_date : DateTime
  due_date : Date
  returned_date : Option DateTime
  fine_amount : Option ℚ
  notes : Option String
deriving DecidableEq

/-- database.py `BorrowRecord.is_overdue`: False as soon as
`returned_date` is set, else compares `date.today()` with `due_date`. -/
def BorrowRecord.is_overdue (r : BorrowRecord) (today : Date) : Bool :=
  if r.returned_date.isSome then false else decide (today > r.due_date)

/-- database.py `BorrowRecord.days_overdue`. -/
def BorrowRecord.days_overdue (r : BorrowRecord) (today : Date) : Int :=
  if r.is_overdue today then today - r.due_date else 0

/-- The relational store visible to the borrow-record and user routes.
`next_record_id` models the autoincrement primary key assigned at
commit. -/
structure LibState where
  users : List User
  books : List Book
  records : List BorrowRecord
  next_record_id : Nat
deriving DecidableEq

/-- `session.get(User, id)`. -/
def getUser (st : LibState) (uid : Nat) : Option User :=
  st.users.find? (fun u => u.id == uid)

/-- `session.get(Book, id)`. -/
def getBook (st : LibState) (bid : Nat) : Option Book :=
  st.books.find? (fun b => b.id == bid)

/-- `session.get(BorrowRecord, id)`. -/
def getRecord (st : LibState) (rid : Nat) : Option BorrowRecord :=
  st.records.find? (fun r => r.id == rid)

/-- How an endpoint terminates abnormally: an `HTTPException`, or one of
the two uncaught Python runtime errors the routes can raise (both surface
as a 500 to the client). -/
inductive ApiError
  | http (status : Nat) (detail : String)
  | attributeErrorNone
  | nameError (name : String)
deriving DecidableEq

/-- Replace the book row with the given id (ORM field assignment +
commit). -/
def setBook (st : LibState) (b : Book) : LibState :=
  { st with books := st.books.map (fun x => if x.id == b.id then b else x) }

/-- Replace the borrow-record row with the given id. -/
def setRecord (st : LibState) (r : BorrowRecord) : LibState :=
  { st with records := st.records.map (fun x => if x.id == r.id then r else x) }

/-- schema.py `BorrowRecordCreateSchema`: the full `BorrowRecordSchema`
field set (borrowed_date, due_date, returned_date, fine_amount, notes)
plus user_id and book_id. -/
structure BorrowRecordCreatePayload where
  borrowed_date : DateTime
  due_date : Date
  returned_date : Option DateTime
  fine_amount : Option ℚ
  notes : Option String
  user_id : Nat
  book_id : Nat
deriving DecidableEq

/-- Pydantic validation of `BorrowRecordCreateSchema`: the
`validate_due_date` validator requires due_date strictly after
`borrowed_date.date()`; `validate_returned_date` requires a supplied
returned_date to be ≥ borrowed_date; the field constraints require
fine_amount ≥ 0 and notes of at most 500 characters. -/
def validateBorrowCreate (p : BorrowRecordCreatePayload) : Bool :=
  decide (dateOfTicks p.borrowed_date < p.due_date)
  && (match p.returned_date with
      | some v => decide (p.borrowed_date ≤ v)
      | none => true)
  && (match p.fine_amount with
      | some q => decide (0 ≤ q)
      | none => true)
  && (match p.notes with
      | some s => decide (s.length ≤ 500)
      | none => true)

/-- borrow_record.py `create_borrow_record`, the route handler body:
user exists → user active → book exists → book available → active-borrow
count below 5 → no overdue active record; then insert
`BorrowRecord(**borrow_data.model_dump())` (every payload field copied
verbatim) and set the book `borrowed`. -/
def create_borrow_record (today : Date) (now : DateTime) (st : LibState)
    (p : BorrowRecordCreatePayload) :
    Except ApiError (BorrowRecord × LibState) :=
  match getUser st p.user_id with
  | none => .error (.http 404 "User not found")
  | some user =>
    if !user.is_active then .error (.http 400 "User is not active")
    else
      match getBook st p.book_id with
      | none => .error (.http 404 "Book not found")
      | some book =>
        if book.status != BookStatus.available then
          .error (.http 400
            ("Book is not available. Current status: " ++ book.status.value))
        else
          let active_borrows_count :=
            (st.records.filter (fun r =>
              r.user_id == p.user_id && r.returned_date.isNone)).length
          if active_borrows_count ≥ 5 then
            .error (.http 400
              "User has reached maximum active borrows limit (5)")
          else
            let overdue_books :=
              st.records.filter (fun r =>
                r.user_id == p.user_id && r.returned_date.isNone
                  && decide (r.due_date < today))
            if !overdue_books.isEmpty then
              .error (.http 400
                "User has overdue books. Cannot borrow new books until returned.")
            else
              let db_borrow : BorrowRecord :=
                { id := st.next_record_id
                  user_id := p.user_id
                  book_id := p.book_id
                  borrowed_date := p.borrowed_date
                  due_date := p.due_date
                  returned_date := p.returned_date
                  fine_amount := p.fine_amount
                  notes := p.notes }
              let st' := setBook st { book with
                status := BookStatus.borrowed, updated_at := now }
              .ok (db_borrow,
                { st' with
                  records := st'.records ++ [db_borrow]
                  next_record_id := st'.next_record_id + 1 })

/-- POST /borrow-records/: pydantic validation, then the handler. -/
def createBorrowEndpoint (today : Date) (now : DateTime) (st : LibState)
    (p : BorrowRecordCreatePayload) :
    Except ApiError (BorrowRecord × LibState) :=
  if validateBorrowCreate p then create_borrow_record today now st p
  else .error (.http 422 "validation error")

/-- borrow_record.py `return_book`. The handler assigns
`returned_date = utcnow()` first, and only then consults
`borrow_record.is_overdue` — which is False whenever returned_date is
set — so the fine branch reads the already-mutated record. The book row
fetched by `session.get(Book, ...)` is dereferenced with no None guard. -/
def return_book (today : Date) (now : DateTime) (st : LibState)
    (borrow_id : Nat) : Except ApiError (BorrowRecord × LibState) :=
  match getRecord st borrow_id with
  | none => .error (.http 404 "Borrow record not found")
  | some r =>
    if r.returned_date.isSome then .error (.http 400 "Book already returned")
    else
      let r1 := { r with returned_date := some now }
      let fine_amount := min ((r1.days_overdue today : ℚ) * (1 / 2)) 25
      let r2 :=
        if r1.is_overdue today then { r1 with fine_amount := some fine_amount }
        else r1
      match getBook st r.book_id with
      | none => .error .attributeErrorNone
      | some book =>
        .ok (r2, setBook (setRecord st r2)
          { book with status := BookStatus.available, updated_at := now })

/-- borrow_record.py `extend_due_date`, the handler body: 404 when the
record is missing, 400 when already returned; otherwise due_date moves
forward and the notes field is ASSIGNED the audit string (the previous
notes value is overwritten, not appended to). -/
def extend_due_date (today : Date) (st : LibState) (borrow_id : Nat)
    (extend_days : Nat) : Except ApiError (BorrowRecord × LibState) :=
  match getRecord st borrow_id with
  | none => .error (.http 404 "Borrow record not found")
  | some r =>
    if r.returned_date.isSome then
      .error (.http 400 "Cannot extend returned book")
    else
      let r2 := { r with
        due_date := r.due_date + extend_days
        notes := some s!"Extended by {extend_days} days on {today}" }
      .ok (r2, setRecord st r2)

/-- PATCH /borrow-records/\x7bid\x7d/extend: FastAPI enforces the query
constraint `ge=1, le=30` before the handler runs. -/
def extendEndpoint (today : Date) (st : LibState) (borrow_id : Nat)
    (extend_days : Nat) : Except ApiError (BorrowRecord × LibState) :=
  if 1 ≤ extend_days ∧ extend_days ≤ 30 then
    extend_due_date today st borrow_id extend_days
  else .error (.http 422 "validation error")

/-- schema.py `BorrowRecordUpdateSchema`: four optional fields, `none`
meaning not supplied (`model_dump(exclude_unset=True)` drops them). -/
structure BorrowRecordUpdatePayload where
  due_date : Option Date
  returned_date : Option DateTime
  fine_amount : Option ℚ
  notes : Option String
deriving DecidableEq

/-- Pydantic validation of `BorrowRecordUpdateSchema`. The class declares
only per-field constraints (fine_amount ≥ 0, notes ≤ 500 chars); it has
no validator relating returned_date or due_date to the stored record's
borrowed_date. -/
def validateBorrowUpdate (p : BorrowRecordUpdatePayload) : Bool :=
  (match p.fine_amount with
    | some q => decide (0 ≤ q)
    | none => true)
  && (match p.notes with
      | some s => decide (s.length ≤ 500)
      | none => true)

/-- borrow_record.py `update_borrow_record`, the handler body: setattr of
each supplied field, no cross-field check against the record. -/
def update_borrow_record (st : LibState) (borrow_id : Nat)
    (p : BorrowRecordUpdatePayload) :
    Except ApiError (BorrowRecord × LibState) :=
  match getRecord st borrow_id with
  | none => .error (.http 404 "Borrow record not found")
  | some r =>
    let r2 : BorrowRecord := { r with
      due_date := p.due_date.getD r.due_date
      returned_date :=
        match p.returned_date with
        | some v => some v
        | none => r.returned_date
      fine_amount :=
        match p.fine_amount with
        | some v => some v
        | none => r.fine_amount
      notes :=
        match p.notes with
        | some v => some v
        | none => r.notes }
    .ok (r2, setRecord st r2)

/-- PATCH /borrow-records/\x7bid\x7d: pydantic validation, then the
handler. -/
def updateBorrowEndpoint (st : LibState) (borrow_id : Nat)
    (p : BorrowRecordUpdatePayload) :
    Except ApiError (BorrowRecord × LibState) :=
  if validateBorrowUpdate p then update_borrow_record st borrow_id p
  else .error (.http 422 "validation error")

/-- borrow_record.py `delete_borrow_record`: when the record is still
unreturned the book row is fetched and forced back to available (again
dereferenced with no None guard); then the record row is removed. -/
def delete_borrow_record (now : DateTime) (st : LibState)
    (borrow_id : Nat) : Except ApiError (String × LibState) :=
  match getRecord st borrow_id with
  | none => .error (.http 404 "Borrow record not found")
  | some r =>
    if r.returned_date.isNone then
      match getBook st r.book_id with
      | none => .error .attributeErrorNone
      | some book =>
        let st' := setBook st { book with
          status := BookStatus.available, updated_at := now }
        .ok ("Borrow record deleted successfully",
          { st' with records := st'.records.filter (fun x => !(x.id == r.id)) })
    else
      .ok ("Borrow record deleted successfully",
        { st with records := st.records.filter (fun x => !(x.id == r.id)) })

/-- users.py `delete_user`. The module imports only `User` and
`get_session` from app.database; the name `BorrowRecord` used in the
active-borrows query on line 124 is never imported, so once the user
exists the handler raises `NameError: name 'BorrowRecord' is not defined`
before the check, and the deletion below it is unreachable. -/
def delete_user (st : LibState) (user_id : Nat) :
    Except ApiError (String × LibState) :=
  match getUser st user_id with
  | none => .error (.http 404 "User not found")
  | some _ => .error (.nameError "BorrowRecord")

/-- schema.py `BookCreateSchema` payload: `BookSchema` fields plus
author_ids. -/
structure BookCreatePayload where
  title : String
  pages : Int
  language : Option String
  description : Option String
  genre : Option Genre
  status : BookStatus
  author_ids : List Nat
deriving DecidableEq

/-- Pydantic validation of `BookCreateSchema`: title 2–100 characters
(`min_length=2, max_length=100`), language ≤ 50, description ≤ 1000,
`author_ids` non-empty (`min_items=1`). The pages field is declared as
`Field(gte=0, lte=10000)`, but `gte`/`lte` are not constraint keyword
arguments of pydantic's `Field` (the recognized spellings are `ge`/`le`);
they land in the extra metadata and enforce nothing, so pages is not
range-checked. A genre or status outside the enumerations is a parse-time
type error, modelled by the typed fields. -/
def validateBookCreate (p : BookCreatePayload) : Bool :=
  decide (2 ≤ p.title.length) && decide (p.title.length ≤ 100)
  && (match p.language with
      | some l => decide (l.length ≤ 50)
      | none => true)
  && (match p.description with
      | some d => decide (d.length ≤ 1000)
      | none => true)
  && !p.author_ids.isEmpty

/-- Does `pat` occur as a contiguous substring of `s` (character list
containment)? Used to state "the previous notes content is preserved
somewhere in the new notes". -/
def occursIn (pat : List Char) : List Char → Bool
  | [] => pat.isEmpty
  | c :: rest => pat.isPrefixOf (c :: rest) || occursIn pat rest

/-- Detects the endpoint outcome that models a Python `AttributeError`
from assigning through a `None` returned by `session.get(Book, ...)`. -/
def isNoneCrash {α : Type} : Except ApiError α → Bool
  | .error .attributeErrorNone => true
  | _ => false

/-- Every borrow record's `book_id` resolves to a stored book row — the
referential-integrity precondition under which the unguarded book
dereferences in `return_book` and `delete_borrow_record` are safe. -/
def recordBooksIntact (st : LibState) : Prop :=
  ∀ r ∈ st.records, (getBook st r.book_id).isSome

instance (st : LibState) : Decidable (recordBooksIntact st) := by
  unfold recordBooksIntact
  infer_instance

/-- A record found by primary key is a row of the store. -/
theorem getRecord_mem {st : LibState} {rid : Nat} {r : BorrowRecord}
    (h : getRecord st rid = some r) : r ∈ st.records :=
  List.mem_of_find?_eq_some h

/- Concrete fixtures used by the closed theorems below. -/

/-- An active member. -/
def aliceUser : User :=
  { id := 1, name := "Alice Example", email := "alice@example.com"
    role := UserRole.member, is_active := true }

/-- A borrowed book row. -/
def duneBook : Book :=
  { id := 1, title := "Dune", pages := 412, language := some "English"
    description := none, genre := some Genre.science_fiction
    status := BookStatus.borrowed, updated_at := 0 }

/-- An active borrow record of `duneBook`, due on day 90, no fine, no
notes. -/
def lateRecord : BorrowRecord :=
  { id := 1, user_id := 1, book_id := 1, borrowed_date := 6912000
    due_date := 90, returned_date := none, fine_amount := none
    notes := none }

/-- A store holding exactly the three rows above. -/
def lateState : LibState :=
  { users := [aliceUser], books := [duneBook], records := [lateRecord]
    next_record_id := 2 }

/-- C1. The fine branch of `return_book` is dead code. On day 100 the
record `lateRecord` (due day 90) is 10 days overdue, so per the spec the
return should store fine `min(10 × 0.50, 25.00) = 5.00`; but the handler
assigns `returned_date` before consulting `is_overdue`, and `is_overdue`
is False for any record whose returned_date is set, so the returned
record keeps `fine_amount = none` while returned_date is set to now. -/
theorem return_book_fine_branch_dead :
    lateRecord.is_overdue 100 = true ∧
    lateRecord.days_overdue 100 = 10 ∧
    some (min ((lateRecord.days_overdue 100 : ℚ) * (1 / 2)) 25) = some 5 ∧
    return_book 100 8640000 lateState 1 =
      .ok ({ lateRecord with returned_date := some 8640000 },
        setBook (setRecord lateState
            { lateRecord with returned_date := some 8640000 })
          { duneBook with
            status := BookStatus.available
            updated_at := 8640000 }) ∧
    ({ lateRecord with returned_date := some 8640000 } :
        BorrowRecord).fine_amount = none := by
  refine ⟨by decide, by decide, ?_, by rfl, by rfl⟩
  have h10 : lateRecord.days_overdue 100 = 10 := by decide
  rw [h10]
  norm_num [min_def]

/-- C3. Deleting an existing borrow record. If the record is ACTIVE
(returned_date absent) and its book row exists, the book row is forced
back to available (`setBook` with status available) and the record row is
removed; if the record is RETURNED, the books table is left untouched and
only the record row is removed. Users are never touched. An
`HTTPException` aborts before commit, so the error branches write
nothing. -/
theorem delete_borrow_record_releases_book (now : DateTime) (st : LibState)
    (borrow_id : Nat) (r : BorrowRecord)
    (h : getRecord st borrow_id = some r) :
    (∀ b, r.returned_date = none → getBook st r.book_id = some b →
      ∃ st', delete_borrow_record now st borrow_id =
          .ok ("Borrow record deleted successfully", st') ∧
        st'.books = (setBook st
          { b with
            status := BookStatus.available
            updated_at := now }).books ∧
        st'.records = st.records.filter (fun x => !(x.id == r.id)) ∧
        st'.users = st.users) ∧
    (r.returned_date.isSome = true →
      ∃ st', delete_borrow_record now st borrow_id =
          .ok ("Borrow record deleted successfully", st') ∧
        st'.books = st.books ∧
        st'.records = st.records.filter (fun x => !(x.id == r.id)) ∧
        st'.users = st.users) := by
  constructor
  · intro b hret hb
    have hnone : r.returned_date.isNone = true := by simp [hret]
    simp only [delete_borrow_record, h, hnone, hb, if_true]
    exact ⟨_, rfl, rfl, rfl, rfl⟩
  · intro hsome
    have hnone : r.returned_date.isNone = false := by
      cases hh : r.returned_date <;> simp [hh] at hsome ⊢
    simp only [delete_borrow_record, h, hnone, Bool.false_eq_true, if_false]
    exact ⟨_, rfl, rfl, rfl, rfl⟩

/-- Closed instance of the C3 theorem: deleting the active `lateRecord`
releases `duneBook`. -/
theorem delete_borrow_record_releases_book_witness :
    ∃ st', delete_borrow_record 7 lateState 1 =
        .ok ("Borrow record deleted successfully", st') ∧
      st'.books = (setBook lateState
        { duneBook with
          status := BookStatus.available
          updated_at := 7 }).books ∧
      st'.records = lateState.records.filter
        (fun x => !(x.id == lateRecord.id)) ∧
      st'.users = lateState.users :=
  (delete_borrow_record_releases_book 7 lateState 1 lateRecord rfl).1
    duneBook rfl rfl

/-- C4. Extending an existing record by `n` days with the query
constraint `1 ≤ n ≤ 30` satisfied: a RETURNED record answers 400
("Cannot extend returned book") and — the raise aborting before commit —
is unchanged; an ACTIVE record has due_date shifted forward by exactly
`n` and fine_amount left untouched. -/
theorem extend_due_date_shifts_or_conflicts (today : Date) (st : LibState)
    (borrow_id extend_days : Nat) (r : BorrowRecord)
    (hn : 1 ≤ extend_days ∧ extend_days ≤ 30)
    (h : getRecord st borrow_id = some r) :
    (r.returned_date.isSome = true →
      extendEndpoint today st borrow_id extend_days =
        .error (.http 400 "Cannot extend returned book")) ∧
    (r.returned_date = none →
      ∃ r' st', extendEndpoint today st borrow_id extend_days =
          .ok (r', st') ∧
        r'.due_date = r.due_date + extend_days ∧
        r'.fine_amount = r.fine_amount) := by
  unfold extendEndpoint
  rw [if_pos hn]
  constructor
  · intro hs
    simp only [extend_due_date, h, hs, if_true]
  · intro hnone
    have hs : r.returned_date.isSome = false := by simp [hnone]
    simp only [extend_due_date, h, hs, Bool.false_eq_true, if_false]
    exact ⟨_, _, rfl, rfl, rfl⟩

/-- Closed instance of the C4 theorem at the active `lateRecord`,
`n = 5`. -/
theorem extend_due_date_shifts_or_conflicts_witness :
    (lateRecord.returned_date.isSome = true →
      extendEndpoint 100 lateState 1 5 =
        .error (.http 400 "Cannot extend returned book")) ∧
    (lateRecord.returned_date = none →
      ∃ r' st', extendEndpoint 100 lateState 1 5 = .ok (r', st') ∧
        r'.due_date = lateRecord.due_date + 5 ∧
        r'.fine_amount = lateRecord.fine_amount) :=
  extend_due_date_shifts_or_conflicts 100 lateState 1 5 lateRecord
    (by decide) rfl

/-- An active borrow record that already carries a notes value. -/
def notedRecord : BorrowRecord :=
  { id := 1, user_id := 1, book_id := 1, borrowed_date := 6912000
    due_date := 90, returned_date := none, fine_amount := none
    notes := some "Handle with care" }

/-- A store holding `notedRecord`. -/
def notedState : LibState :=
  { users := [aliceUser], books := [duneBook], records := [notedRecord]
    next_record_id := 2 }

/-- `notedRecord` after the 3-day extension performed on day 42. -/
def extendedNotedRecord : BorrowRecord :=
  { notedRecord with
    due_date := 93
    notes := some "Extended by 3 days on 42" }

/-- C5 counterexample. Extending `notedRecord` (whose notes read "Handle
with care") by 3 days on day 42 ASSIGNS the audit string to notes; the
previous content does not occur anywhere in the new notes value, so it is
not preserved, contradicting "appended … preserving any notes content
already present". -/
theorem extend_discards_prior_notes :
    notedRecord.notes = some "Handle with care" ∧
    extend_due_date 42 notedState 1 3 =
      .ok (extendedNotedRecord, setRecord notedState extendedNotedRecord) ∧
    extendedNotedRecord.notes = some "Extended by 3 days on 42" ∧
    occursIn "Handle with care".toList
      "Extended by 3 days on 42".toList = false := by
  refine ⟨rfl, rfl, rfl, by decide⟩

/-- C5 as amended. A successful extension writes
`"Extended by n days on today"` as the entire notes value: the audit note
replaces whatever notes content was present rather than being appended
to it. -/
theorem extend_replaces_notes (today : Date) (st : LibState)
    (borrow_id extend_days : Nat) (r : BorrowRecord)
    (h : getRecord st borrow_id = some r)
    (hact : r.returned_date = none) :
    ∃ st', extend_due_date today st borrow_id extend_days =
      .ok ({ r with
        due_date := r.due_date + extend_days
        notes := some s!"Extended by {extend_days} days on {today}" },
        st') := by
  have hs : r.returned_date.isSome = false := by simp [hact]
  simp only [extend_due_date, h, hs, Bool.false_eq_true, if_false]
  exact ⟨_, rfl⟩

/-- Closed instance of the amended C5 theorem. -/
theorem extend_replaces_notes_witness :
    ∃ st', extend_due_date 42 notedState 1 3 =
      .ok ({ notedRecord with
        due_date := notedRecord.due_date + 3
        notes := some s!"Extended by {(3 : Nat)} days on {(42 : Int)}" },
        st') :=
  extend_replaces_notes 42 notedState 1 3 notedRecord rfl rfl

/-- An existing active user who owns no borrow records at all. -/
def soloUser : User :=
  { id := 7, name := "Bob Librarian", email := "bob@example.com"
    role := UserRole.librarian, is_active := true }

/-- A store holding only `soloUser` and no records. -/
def soloUserState : LibState :=
  { users := [soloUser], books := [], records := [], next_record_id := 1 }

/-- C7. Deleting any existing user raises
`NameError: name 'BorrowRecord' is not defined` (routes/users.py imports
only `User` and `get_session`), so even a user owning zero unreturned
records is never deleted; the endpoint answers an unhandled 500, not the
documented success. -/
theorem delete_user_raises_name_error :
    (∀ (st : LibState) (uid : Nat) (u : User), getUser st uid = some u →
      delete_user st uid = .error (.nameError "BorrowRecord")) ∧
    getUser soloUserState 7 = some soloUser ∧
    soloUserState.records = [] ∧
    delete_user soloUserState 7 = .error (.nameError "BorrowRecord") := by
  refine ⟨?_, rfl, rfl, rfl⟩
  intro st uid u h
  simp only [delete_user, h]

/-- Closed instance of the C7 theorem at `soloUser`. -/
theorem delete_user_raises_name_error_witness :
    delete_user soloUserState 7 = .error (.nameError "BorrowRecord") :=
  delete_user_raises_name_error.1 soloUserState 7 soloUser rfl

/-- An active record borrowed at tick 1000. -/
def plainRecord : BorrowRecord :=
  { id := 1, user_id := 1, book_id := 1, borrowed_date := 1000
    due_date := 90, returned_date := none, fine_amount := none
    notes := none }

/-- A store holding `plainRecord`. -/
def plainState : LibState :=
  { users := [aliceUser], books := [duneBook], records := [plainRecord]
    next_record_id := 2 }

/-- An update payload supplying a returned_date of tick 5 — far before
`plainRecord.borrowed_date` (tick 1000). -/
def earlyReturnPayload : BorrowRecordUpdatePayload :=
  { due_date := none, returned_date := some 5, fine_amount := none
    notes := none }

/-- `plainRecord` after the early-return patch is applied. -/
def patchedRecord : BorrowRecord :=
  { plainRecord with returned_date := some 5 }

/-- C6 counterexample. The generic update endpoint accepts a payload
whose returned_date (tick 5) precedes the record's borrowed_date
(tick 1000): `BorrowRecordUpdateSchema` declares no cross-field
validator, so the payload validates and the value is persisted. -/
theorem update_accepts_early_returned_date :
    validateBorrowUpdate earlyReturnPayload = true ∧
    plainRecord.borrowed_date = 1000 ∧
    updateBorrowEndpoint plainState 1 earlyReturnPayload =
      .ok (patchedRecord, setRecord plainState patchedRecord) ∧
    patchedRecord.returned_date = some 5 ∧
    (5 : Int) < patchedRecord.borrowed_date := by
  refine ⟨rfl, rfl, rfl, rfl, by decide⟩

/-- C6 as amended. Create payloads are fully validated before
persistence: `validateBorrowCreate` passes exactly when
due_date > borrowed_date.date(), a supplied returned_date is
≥ borrowed_date, a supplied fine_amount is ≥ 0 and supplied notes are at
most 500 characters. The generic update endpoint, however, validates only
the per-field constraints: whenever the record exists, the payload
field-validates and a returned_date is supplied, the endpoint succeeds
and persists that returned_date verbatim — whatever its relation to the
record's (unchanged) borrowed_date. -/
theorem borrow_validation_create_strict_update_lax :
    (∀ p : BorrowRecordCreatePayload, validateBorrowCreate p = true ↔
      (dateOfTicks p.borrowed_date < p.due_date ∧
        (∀ v, p.returned_date = some v → p.borrowed_date ≤ v) ∧
        (∀ q, p.fine_amount = some q → 0 ≤ q) ∧
        (∀ s, p.notes = some s → s.length ≤ 500))) ∧
    (∀ (st : LibState) (borrow_id : Nat) (p : BorrowRecordUpdatePayload)
        (r : BorrowRecord) (v : DateTime),
      getRecord st borrow_id = some r → validateBorrowUpdate p = true →
      p.returned_date = some v →
      ∃ r' st', updateBorrowEndpoint st borrow_id p = .ok (r', st') ∧
        r'.returned_date = some v ∧
        r'.borrowed_date = r.borrowed_date) := by
  constructor
  · intro p
    unfold validateBorrowCreate
    cases hr : p.returned_date <;> cases hf : p.fine_amount <;>
      cases hn : p.notes <;>
      simp [hr, hf, hn, decide_eq_true_eq, and_assoc]
  · intro st borrow_id p r v h hv hp
    simp only [updateBorrowEndpoint, hv, if_true, update_borrow_record, h,
      hp]
    exact ⟨_, _, rfl, rfl, rfl⟩

/-- Closed instance of the amended C6 theorem: the early-return patch
goes through. -/
theorem borrow_validation_create_strict_update_lax_witness :
    ∃ r' st', updateBorrowEndpoint plainState 1 earlyReturnPayload =
        .ok (r', st') ∧
      r'.returned_date = some 5 ∧
      r'.borrowed_date = plainRecord.borrowed_date :=
  borrow_validation_create_strict_update_lax.2 plainState 1
    earlyReturnPayload plainRecord 5 rfl rfl rfl

/-- A 150-character title: legal per the spec's stated 2–200 bound. -/
def longTitle : String := String.mk (List.replicate 150 'a')

/-- A creation payload with the 150-character title, in-range pages and
one author id. -/
def longTitlePayload : BookCreatePayload :=
  { title := longTitle, pages := 321, language := none
    description := none, genre := none, status := BookStatus.available
    author_ids := [1] }

set_option maxRecDepth 10000 in
/-- C8 counterexample. A 150-character title lies inside the claimed
2–200 window, pages and author_ids satisfy every claimed constraint, yet
validation rejects the payload: `BookSchema` declares
`max_length=100`. -/
theorem book_title_over_100_rejected :
    longTitle.length = 150 ∧
    2 ≤ longTitle.length ∧ longTitle.length ≤ 200 ∧
    (0 : Int) ≤ longTitlePayload.pages ∧
    longTitlePayload.pages ≤ 10000 ∧
    longTitlePayload.author_ids ≠ [] ∧
    validateBookCreate longTitlePayload = false := by decide

/-- C8 as amended. Book-creation validation passes exactly when the
title has 2–100 characters, a supplied language has at most 50, a
supplied description at most 1000, and at least one author id is given;
pages is NOT range-checked (the `gte`/`lte` spellings in
`Field(gte=0, lte=10000)` are not pydantic constraint keywords), so
changing pages to any value never changes the verdict. -/
theorem validateBookCreate_characterized :
    (∀ p : BookCreatePayload, validateBookCreate p = true ↔
      (2 ≤ p.title.length ∧ p.title.length ≤ 100 ∧
        (∀ l, p.language = some l → l.length ≤ 50) ∧
        (∀ d, p.description = some d → d.length ≤ 1000) ∧
        p.author_ids ≠ [])) ∧
    (∀ (p : BookCreatePayload) (n : Int),
      validateBookCreate { p with pages := n } = validateBookCreate p) := by
  constructor
  · intro p
    unfold validateBookCreate
    cases hl : p.language <;> cases hd : p.description <;>
      simp [hl, hd, decide_eq_true_eq, List.isEmpty_iff, and_assoc]
  · intro p n
    rfl

/-- Closed instance of the amended C8 theorem at a well-formed payload.
Its pages value 99999 lies far outside 0–10000, and validation still
passes. -/
theorem validateBookCreate_characterized_witness :
    validateBookCreate
      { title := "Dune", pages := 99999, language := none
        description := none, genre := none
        status := BookStatus.available, author_ids := [1] } = true :=
  (validateBookCreate_characterized.1 _).mpr
    (by refine ⟨by decide, by decide, ?_, ?_, by decide⟩ <;> intro x hx <;>
      cases hx)

/-- An available book with no borrow history. -/
def freshBook : Book :=
  { id := 2, title := "Hyperion", pages := 500, language := some "English"
    description := none, genre := some Genre.science_fiction
    status := BookStatus.available, updated_at := 0 }

/-- A store with `aliceUser`, the available `freshBook` and no records. -/
def freshState : LibState :=
  { users := [aliceUser], books := [freshBook], records := []
    next_record_id := 1 }

/-- A create payload that supplies the optional returned_date (tick 100 ≥
borrowed_date, so it validates). -/
def preReturnedPayload : BorrowRecordCreatePayload :=
  { borrowed_date := 0, due_date := 5, returned_date := some 100
    fine_amount := none, notes := none, user_id := 1, book_id := 2 }

/-- The record the create endpoint builds from `preReturnedPayload`:
already RETURNED at birth. -/
def bornReturnedRecord : BorrowRecord :=
  { id := 1, user_id := 1, book_id := 2, borrowed_date := 0, due_date := 5
    returned_date := some 100, fine_amount := none, notes := none }

/-- C9. `BorrowRecord(**borrow_data.model_dump())` copies every payload
field verbatim — including returned_date, fine_amount and notes inherited
from the base schema — and the book is unconditionally marked borrowed.
Consequently the valid payload `preReturnedPayload` creates a record that
is already RETURNED while `freshBook` transitions to borrowed, leaving a
borrowed book with no ACTIVE record referencing it. -/
theorem create_borrow_copies_payload_verbatim :
    (∀ (today : Date) (now : DateTime) (st : LibState)
        (p : BorrowRecordCreatePayload) (r : BorrowRecord)
        (st' : LibState),
      create_borrow_record today now st p = .ok (r, st') →
      r.user_id = p.user_id ∧ r.book_id = p.book_id ∧
      r.borrowed_date = p.borrowed_date ∧ r.due_date = p.due_date ∧
      r.returned_date = p.returned_date ∧ r.fine_amount = p.fine_amount ∧
      r.notes = p.notes ∧ r ∈ st'.records) ∧
    (validateBorrowCreate preReturnedPayload = true ∧
      ∃ st', createBorrowEndpoint 0 50 freshState preReturnedPayload =
          .ok (bornReturnedRecord, st') ∧
        getBook st' 2 = some { freshBook with
          status := BookStatus.borrowed
          updated_at := 50 } ∧
        bornReturnedRecord.returned_date = some 100 ∧
        st'.records.all
          (fun x => x.book_id != 2 || x.returned_date.isSome) = true) := by
  constructor
  · intro today now st p r st' h
    unfold create_borrow_record at h
    split at h
    · exact Except.noConfusion h
    · split at h
      · exact Except.noConfusion h
      · split at h
        · exact Except.noConfusion h
        · dsimp only at h
          split at h
          · exact Except.noConfusion h
          · split at h
            · exact Except.noConfusion h
            · split at h
              · exact Except.noConfusion h
              · injection h with hpair
                injection hpair with hr hst
                subst hr
                subst hst
                refine ⟨rfl, rfl, rfl, rfl, rfl, rfl, rfl, ?_⟩
                simp
  · exact ⟨rfl, ⟨_, rfl, rfl, rfl, rfl⟩⟩

/-- Closed instance of the verbatim-copy half of the C9 theorem, at the
concrete scenario the second half exhibits. -/
theorem create_borrow_copies_payload_verbatim_witness :
    bornReturnedRecord.user_id = preReturnedPayload.user_id ∧
    bornReturnedRecord.book_id = preReturnedPayload.book_id ∧
    bornReturnedRecord.borrowed_date = preReturnedPayload.borrowed_date ∧
    bornReturnedRecord.due_date = preReturnedPayload.due_date ∧
    bornReturnedRecord.returned_date = preReturnedPayload.returned_date ∧
    bornReturnedRecord.fine_amount = preReturnedPayload.fine_amount ∧
    bornReturnedRecord.notes = preReturnedPayload.notes ∧
    bornReturnedRecord ∈
      ({ users := [aliceUser]
         books := [{ freshBook with
           status := BookStatus.borrowed
           updated_at := 50 }]
         records := [bornReturnedRecord]
         next_record_id := 2 } : LibState).records :=
  create_borrow_copies_payload_verbatim.1 0 50 freshState
    preReturnedPayload bornReturnedRecord _ rfl

/-- A record whose book_id (99) matches no stored book row. -/
def orphanRecord : BorrowRecord :=
  { id := 1, user_id := 1, book_id := 99, borrowed_date := 0
    due_date := 90, returned_date := none, fine_amount := none
    notes := none }

/-- A store holding `orphanRecord` and no books at all. -/
def orphanState : LibState :=
  { users := [aliceUser], books := [], records := [orphanRecord]
    next_record_id := 2 }

/-- C10. `return_book` and `delete_borrow_record` assign through the
result of `session.get(Book, record.book_id)` with no None guard. When
every stored record's book_id resolves to a book row
(`recordBooksIntact`) neither operation can reach the AttributeError
outcome, so the 404/400 taxonomy is exhaustive; on a store violating that
precondition (`orphanState`) both operations do crash. -/
theorem book_deref_safe_iff_refs_intact :
    (∀ st : LibState, recordBooksIntact st →
      ∀ (today : Date) (now : DateTime) (borrow_id : Nat),
        isNoneCrash (return_book today now st borrow_id) = false ∧
        isNoneCrash (delete_borrow_record now st borrow_id) = false) ∧
    isNoneCrash (return_book 100 8640000 orphanState 1) = true ∧
    isNoneCrash (delete_borrow_record 0 orphanState 1) = true := by
  refine ⟨?_, rfl, rfl⟩
  intro st hint today now borrow_id
  constructor
  · cases hr : getRecord st borrow_id with
    | none => simp [return_book, hr, isNoneCrash]
    | some r =>
      have hb := hint r (getRecord_mem hr)
      cases hs : r.returned_date.isSome with
      | true => simp [return_book, hr, hs, isNoneCrash]
      | false =>
        cases hbk : getBook st r.book_id with
        | none => rw [hbk] at hb; simp at hb
        | some b => simp [return_book, hr, hs, hbk, isNoneCrash]
  · cases hr : getRecord st borrow_id with
    | none => simp [delete_borrow_record, hr, isNoneCrash]
    | some r =>
      have hb := hint r (getRecord_mem hr)
      cases hs : r.returned_date <;>
        [skip; simp [delete_borrow_record, hr, hs, isNoneCrash]]
      cases hbk : getBook st r.book_id with
      | none => rw [hbk] at hb; simp at hb
      | some b => simp [delete_borrow_record, hr, hs, hbk, isNoneCrash]

/-- Closed instance of the safety half of the C10 theorem on the intact
store `lateState`. -/
theorem book_deref_safe_iff_refs_intact_witness :
    isNoneCrash (return_book 100 8640000 lateState 1) = false ∧
    isNoneCrash (delete_borrow_record 8640000 lateState 1) = false :=
  book_deref_safe_iff_refs_intact.1 lateState (by decide) 100 8640000 1

/-- The create-borrow behaviour as the claim words it (amended success
effect): the four preconditions checked in the stated order with first
failure winning — user exists and active, book exists and available,
fewer than 5 ACTIVE records owned, zero ACTIVE records currently
OVERDUE — and on success a record carrying the payload's fields inserted
while the book goes `available → borrowed`. Written with `countP` and
positive conditions, to be compared against `create_borrow_record`. -/
def createBorrowClaimed (today : Date) (now : DateTime) (st : LibState)
    (p : BorrowRecordCreatePayload) :
    Except ApiError (BorrowRecord × LibState) :=
  match getUser st p.user_id with
  | none => .error (.http 404 "User not found")
  | some user =>
    if user.is_active then
      match getBook st p.book_id with
      | none => .error (.http 404 "Book not found")
      | some book =>
        if book.status = BookStatus.available then
          if (st.records.countP (fun r =>
              r.user_id == p.user_id && r.returned_date.isNone)) < 5 then
            if (st.records.countP (fun r =>
                r.user_id == p.user_id && r.returned_date.isNone
                  && decide (r.due_date < today))) = 0 then
              let inserted : BorrowRecord :=
                { id := st.next_record_id
                  user_id := p.user_id
                  book_id := p.book_id
                  borrowed_date := p.borrowed_date
                  due_date := p.due_date
                  returned_date := p.returned_date
                  fine_amount := p.fine_amount
                  notes := p.notes }
              .ok (inserted,
                { users := st.users
                  books := st.books.map (fun b =>
                    if b.id == book.id then
                      { book with
                        status := BookStatus.borrowed
                        updated_at := now }
                    else b)
                  records := st.records ++ [inserted]
                  next_record_id := st.next_record_id + 1 })
            else
              .error (.http 400
                "User has overdue books. Cannot borrow new books until returned.")
          else
            .error (.http 400
              "User has reached maximum active borrows limit (5)")
        else
          .error (.http 400
            ("Book is not available. Current status: " ++ book.status.value))
    else .error (.http 400 "User is not active")

/-- C2 counterexample. The claim's success clause says "a new ACTIVE
record [is] inserted"; but the payload may carry a returned_date, all
four preconditions then pass on `freshState`, and the handler inserts a
record that is RETURNED (returned_date present), not ACTIVE. -/
theorem create_borrow_inserted_record_not_always_active :
    getUser freshState preReturnedPayload.user_id = some aliceUser ∧
    aliceUser.is_active = true ∧
    getBook freshState preReturnedPayload.book_id = some freshBook ∧
    freshBook.status = BookStatus.available ∧
    freshState.records = [] ∧
    create_borrow_record 0 50 freshState preReturnedPayload =
      .ok (bornReturnedRecord,
        { users := [aliceUser]
          books := [{ freshBook with
            status := BookStatus.borrowed
            updated_at := 50 }]
          records := [bornReturnedRecord]
          next_record_id := 2 }) ∧
    bornReturnedRecord.returned_date ≠ none := by
  refine ⟨rfl, rfl, rfl, rfl, rfl, rfl, by decide⟩

/-- C2 as amended. `create_borrow_record` coincides with
`createBorrowClaimed` on every input: the four preconditions are checked
in exactly the claimed order with first failure winning (an
`HTTPException` aborts before any write), and only when all pass is a
record carrying the payload's fields inserted — ACTIVE precisely when
the payload leaves returned_date unset — with the book moved
`available → borrowed`. -/
theorem create_borrow_checks_in_claimed_order (today : Date)
    (now : DateTime) (st : LibState) (p : BorrowRecordCreatePayload) :
    create_borrow_record today now st p =
      createBorrowClaimed today now st p := by
  unfold create_borrow_record createBorrowClaimed
  cases hu : getUser st p.user_id with
  | none => rfl
  | some user =>
    dsimp only
    cases ha : user.is_active with
    | false => simp [ha]
    | true =>
      simp only [ha, Bool.not_true, Bool.false_eq_true, if_false, if_true]
      cases hb : getBook st p.book_id with
      | none => rfl
      | some book =>
        dsimp only
        cases hs : book.status with
        | borrowed => rfl
        | reserved => rfl
        | maintenance => rfl
        | lost => rfl
        | available =>
          simp only [bne_self_eq_false, Bool.false_eq_true, if_false,
            if_true, List.countP_eq_length_filter, eq_self_iff_true]
          split
          · rename_i h5
            have hnotlt : ¬((List.filter (fun r =>
                r.user_id == p.user_id && r.returned_date.isNone)
                  st.records).length < 5) := by omega
            rw [if_neg hnotlt]
          · rename_i h5
            have hlt : (List.filter (fun r =>
                r.user_id == p.user_id && r.returned_date.isNone)
                  st.records).length < 5 := by omega
            rw [if_pos hlt]
            split
            · rename_i hne
              have hnz : ¬((List.filter (fun r =>
                  r.user_id == p.user_id && r.returned_date.isNone
                    && decide (r.due_date < today)) st.records).length = 0) := by
                intro hlen
                rw [List.length_eq_zero] at hlen
                rw [hlen] at hne
                simp at hne
              rw [if_neg hnz]
            · rename_i hne
              have hnil : List.filter (fun r =>
                  r.user_id == p.user_id && r.returned_date.isNone
                    && decide (r.due_date < today)) st.records = [] := by
                rcases hf : List.filter (fun r =>
                    r.user_id == p.user_id && r.returned_date.isNone
                      && decide (r.due_date < today)) st.records with
                  _ | ⟨x, xs⟩
                · exact hf
                · rw [hf] at hne
                  simp at hne
              have hz : (List.filter (fun r =>
                  r.user_id == p.user_id && r.returned_date.isNone
                    && decide (r.due_date < today)) st.records).length = 0 := by
                rw [hnil]
                rfl
              rw [if_pos hz]
              rfl

/-- Closed instance of the amended C2 theorem at the concrete scenario
of the counterexample. -/
theorem create_borrow_checks_in_claimed_order_witness :
    create_borrow_record 0 50 freshState preReturnedPayload =
      createBorrowClaimed 0 50 freshState preReturnedPayload :=
  create_borrow_checks_in_claimed_order 0 50 freshState preReturnedPayload

end BooksLibrary
